import Mathlib

/-!
Shallow embedding of `src/tailwind.config.js` and proofs of the spec claims.

The repository's only source file exports a static Tailwind CSS configuration
object.  We embed its value as structured data (a JSON-like value type), keep
its fields as typed Lean constants, and embed the file's raw text line by line
in order to reason about its length.  In the embedded strings the characters
`\x7b`, `\x7d` and `\x27` are the literal brace and apostrophe characters of
the JavaScript source, written with hexadecimal escapes.
-/

/-- A JSON-like value: the structured data a JavaScript object literal denotes. -/
inductive JValue where
  | str : String → JValue
  | arr : List JValue → JValue
  | obj : List (String × JValue) → JValue

/-- The `content` field of the exported object: line 3 of the source. -/
def contentPatterns : List String := ["./templates/**/*.\x7bhtml,js\x7d"]

/-- The `theme.extend.colors` mapping: lines 6 to 9 of the source,
in source order. -/
def themeExtendColors : List (String × String) :=
  [("primary", "#d4a574"), ("secondary", "#8b7355")]

/-- The `plugins` field of the exported object: line 12 of the source,
an empty array literal. -/
def pluginsField : List JValue := []

/-- The structured value of `module.exports` in `src/tailwind.config.js`. -/
def tailwindConfig : JValue :=
  JValue.obj
    [ ("content", JValue.arr (contentPatterns.map JValue.str)),
      ("theme", JValue.obj
        [ ("extend", JValue.obj
            [ ("colors", JValue.obj
                (themeExtendColors.map fun kv => (kv.1, JValue.str kv.2))) ]) ]),
      ("plugins", JValue.arr pluginsField) ]

/-- Evaluating the module: the file has no statements besides the single
assignment to `module.exports` of an object literal built from string, array
and object literals only, so every evaluation denotes the same value. -/
def evalTailwindModule (_ : Unit) : JValue := tailwindConfig

/-- The raw text of `src/tailwind.config.js`, one entry per line.
The file ends without a trailing newline, so it has exactly these lines. -/
def tailwindConfigFileLines : List String :=
  [ "/** @type \x7bimport(\x27tailwindcss\x27).Config\x7d */",
    "module.exports = \x7b",
    "  content: [\"./templates/**/*.\x7bhtml,js\x7d\"],",
    "  theme: \x7b",
    "    extend: \x7b",
    "      colors: \x7b",
    "        primary: \x27#d4a574\x27,",
    "        secondary: \x27#8b7355\x27,",
    "      \x7d",
    "    \x7d,",
    "  \x7d,",
    "  plugins: [],",
    "\x7d" ]

/-- The full text of the source file. -/
def tailwindConfigFileText : String :=
  String.intercalate "\n" tailwindConfigFileLines

/-- Number of lines of the source file. -/
def tailwindConfigFileLineCount : Nat := tailwindConfigFileLines.length

/-- `c` is a hexadecimal digit (either case). -/
def isHexDigitChar (c : Char) : Bool :=
  (Char.ofNat 48 ≤ c && c ≤ Char.ofNat 57) ||
  (Char.ofNat 97 ≤ c && c ≤ Char.ofNat 102) ||
  (Char.ofNat 65 ≤ c && c ≤ Char.ofNat 70)

/-- `c` is a lowercase hexadecimal digit: `0`-`9` or `a`-`f`. -/
def isLowerHexDigitChar (c : Char) : Bool :=
  (Char.ofNat 48 ≤ c && c ≤ Char.ofNat 57) ||
  (Char.ofNat 97 ≤ c && c ≤ Char.ofNat 102)

/-- `s` matches the grammar `#([0-9a-fA-F]\x7b3\x7d|[0-9a-fA-F]\x7b6\x7d)`:
a `#` followed by exactly 3 or exactly 6 hexadecimal digits. -/
def isHexColor (s : String) : Bool :=
  match s.data with
  | c :: rest =>
      c == Char.ofNat 35 && (rest.length == 3 || rest.length == 6) &&
        rest.all isHexDigitChar
  | [] => false

/-- `s` is a `#` followed by exactly 6 lowercase hexadecimal digits. -/
def isSixDigitLowerHexColor (s : String) : Bool :=
  match s.data with
  | c :: rest =>
      c == Char.ofNat 35 && rest.length == 6 && rest.all isLowerHexDigitChar
  | [] => false

/-- `v` is an array whose elements are all strings. -/
def isStringArray (v : JValue) : Bool :=
  match v with
  | JValue.arr xs => xs.all fun x => match x with | JValue.str _ => true | _ => false
  | _ => false

/-- `v` is an object whose values are all strings. -/
def isStringMap (v : JValue) : Bool :=
  match v with
  | JValue.obj kvs =>
      kvs.all fun kv => match kv.2 with | JValue.str _ => true | _ => false
  | _ => false

/-- `v` is an array. -/
def isArrayValue (v : JValue) : Bool :=
  match v with
  | JValue.arr _ => true
  | _ => false

/-- `v` has the external-interface shape expected by the build tool:
`content` is an array of strings, `theme.extend.colors` is a mapping from
strings to strings, `plugins` is an array. -/
def hasConfigShape (v : JValue) : Bool :=
  match v with
  | JValue.obj kvs =>
      (match List.lookup "content" kvs with
       | some c => isStringArray c
       | none => false) &&
      (match List.lookup "theme" kvs with
       | some (JValue.obj tkvs) =>
           (match List.lookup "extend" tkvs with
            | some (JValue.obj ekvs) =>
                (match List.lookup "colors" ekvs with
                 | some c => isStringMap c
                 | none => false)
            | _ => false)
       | _ => false) &&
      (match List.lookup "plugins" kvs with
       | some p => isArrayValue p
       | none => false)
  | _ => false

/-- The set of files selected by scanning with a list of glob patterns:
a file is selected when at least one pattern matches it (a union). -/
def selectedByScan (patterns : List String) (matchesGlob : String → String → Bool)
    (file : String) : Bool :=
  patterns.any fun p => matchesGlob p file

/-- Scanning with a list of patterns is a union, so it is invariant under
permutation of the pattern list.  Helper for the claim about `content`. -/
theorem selectedByScan_perm (l₁ l₂ : List String) (h : l₁.Perm l₂)
    (matchesGlob : String → String → Bool) (file : String) :
    selectedByScan l₁ matchesGlob file = selectedByScan l₂ matchesGlob file := by
  induction h with
  | nil => rfl
  | cons x _ ih =>
      simp only [selectedByScan, List.any_cons] at ih ⊢
      rw [ih]
  | swap x y l =>
      simp only [selectedByScan, List.any_cons]
      rw [← Bool.or_assoc, ← Bool.or_assoc, Bool.or_comm (matchesGlob y file)]
  | trans _ _ ih₁ ih₂ =>
      rw [ih₁, ih₂]

/-- Claim C1: every value in the `theme.extend.colors` mapping of the exported
configuration record matches the hex-color grammar: a `#` followed by exactly
3 or exactly 6 hexadecimal digits. -/
theorem colors_values_are_hex :
    themeExtendColors.all (fun kv => isHexColor kv.2) = true := by
  decide

/-- Claim C2: the exported configuration record is valid structured data of the
external-interface shape: `content` an array of strings, `theme.extend.colors`
a mapping from string names to string values, `plugins` an array. -/
theorem config_has_interface_shape :
    hasConfigShape tailwindConfig = true := by
  decide

/-- Claim C3: the `content` field contains at least one element and every
element is a non-empty string. -/
theorem content_patterns_nonempty :
    1 ≤ contentPatterns.length ∧
      contentPatterns.all (fun p => !p.isEmpty) = true := by
  decide

/-- Claim C4: the `plugins` field is an array and it is empty. -/
theorem plugins_is_empty_array :
    isArrayValue (JValue.arr pluginsField) = true ∧ pluginsField.length = 0 :=
  ⟨rfl, rfl⟩

/-- Claim C5: the keys of the `theme.extend.colors` mapping are unique: no
color name appears more than once. -/
theorem colors_keys_unique :
    (themeExtendColors.map Prod.fst).Nodup := by
  decide

/-- Claim C6 counterexample: the source file is not 14 lines long. -/
theorem file_line_count_not_14 :
    ¬ tailwindConfigFileLineCount = 14 := by
  decide

/-- Claim C6 (amended): the repository's single declarative configuration file
is exactly 13 lines long. -/
theorem file_line_count_13 :
    tailwindConfigFileLineCount = 13 := by
  decide

/-- Claim C7: the order of the glob patterns in `content` does not affect
scanning semantics: any permutation of the `content` array selects exactly the
same files, for every glob-matching relation and every file. -/
theorem content_scan_order_irrelevant (perm : List String)
    (h : perm.Perm contentPatterns) (matchesGlob : String → String → Bool)
    (file : String) :
    selectedByScan perm matchesGlob file =
      selectedByScan contentPatterns matchesGlob file :=
  selectedByScan_perm perm contentPatterns h matchesGlob file

/-- Witness for claim C7 at a concrete permutation, matcher and file. -/
theorem content_scan_order_irrelevant_witness :
    contentPatterns.Perm contentPatterns ∧
      selectedByScan contentPatterns (fun _ f => f == "a.html") "a.html" =
        selectedByScan contentPatterns (fun _ f => f == "a.html") "a.html" :=
  ⟨List.Perm.refl contentPatterns,
    content_scan_order_irrelevant contentPatterns
      (List.Perm.refl contentPatterns) (fun _ f => f == "a.html") "a.html"⟩

/-- Claim C8: the exported configuration record is a constant value: the
module body is a single assignment of a literal, so every evaluation of the
module yields the same value, and the repository defines no operation that
could mutate it. -/
theorem module_evaluation_deterministic (u v : Unit) :
    evalTailwindModule u = evalTailwindModule v :=
  rfl

/-- Claim C9: the `content` field is exactly the one-element list holding the
glob pattern `./templates/**/*.\x7bhtml,js\x7d`. -/
theorem content_is_exact_singleton :
    contentPatterns = ["./templates/**/*.\x7bhtml,js\x7d"] :=
  rfl

/-- Claim C10: the `theme.extend.colors` mapping has exactly the two entries
`primary` to `#d4a574` and `secondary` to `#8b7355`, and both values are
6-digit lowercase hex colors. -/
theorem colors_exact_two_lowercase_entries :
    themeExtendColors = [("primary", "#d4a574"), ("secondary", "#8b7355")] ∧
      themeExtendColors.all (fun kv => isSixDigitLowerHexColor kv.2) = true :=
  ⟨rfl, by decide⟩
